import Mathlib

/-!
Verification of the litestar-oauth core against its specification.

The data types come from `src/litestar_oauth/types.py` (both the msgspec
branch and the dataclass fallback define identical fields and behavior), the
plugin configuration from `src/litestar_oauth/contrib/litestar/config.py`.
Timestamps (`datetime` values) are embedded as `Int` seconds; `datetime.now`
is an explicit `now : Int` parameter threaded to every operation that reads
the clock.  Python `Optional[str]` becomes `Option String`; Python
truthiness of an optional string (`if x:`) is `pyTruthy`.
-/

namespace LitestarOAuth

/-- Python truthiness of an `Optional[str]`: `None` and `""` are falsy. -/
def pyTruthy : Option String → Bool
  | none => false
  | some s => s ≠ ""

/-- Python `x or y` on `Optional[str]` values: `x` when truthy, else `y`. -/
def pyOr (x y : Option String) : Option String :=
  if pyTruthy x then x else y

/-- `OAuthUserInfo` from `types.py` (fields identical in both the msgspec and
the dataclass branch).  `raw_data : dict[str, Any]` is embedded as an opaque
association list. -/
structure OAuthUserInfo where
  provider : String
  oauth_id : String
  email : Option String := none
  email_verified : Bool := false
  username : Option String := none
  first_name : Option String := none
  last_name : Option String := none
  avatar_url : Option String := none
  profile_url : Option String := none
  raw_data : List (String × String) := []
  deriving DecidableEq, Repr

/-- The `full_name` property of `OAuthUserInfo`:
`if self.first_name and self.last_name: return f"{self.first_name} {self.last_name}"`
then `return self.first_name or self.last_name`. -/
def OAuthUserInfo.full_name (u : OAuthUserInfo) : Option String :=
  if pyTruthy u.first_name && pyTruthy u.last_name then
    some (u.first_name.getD "" ++ " " ++ u.last_name.getD "")
  else
    pyOr u.first_name u.last_name

/-- The constructor of `OAuthUserInfo`.  Both the msgspec `Struct` and the
frozen dataclass generate an `__init__` that assigns each field from its
argument; the only checking performed is type checking (here enforced by the
Lean types), so construction never rejects a value and in particular performs
no non-emptiness check on any string field.  The `Except` result type records
that an `__init__` may in principle raise. -/
def OAuthUserInfo.construct (provider oauth_id : String) (email : Option String)
    (email_verified : Bool) (username first_name last_name avatar_url profile_url : Option String)
    (raw_data : List (String × String)) : Except String OAuthUserInfo :=
  .ok { provider, oauth_id, email, email_verified, username, first_name, last_name,
        avatar_url, profile_url, raw_data }

/-- `OAuthToken` from `types.py`. -/
structure OAuthToken where
  access_token : String
  token_type : String := "Bearer"
  expires_in : Option Int := none
  refresh_token : Option String := none
  scope : Option String := none
  id_token : Option String := none
  raw_response : List (String × String) := []
  deriving DecidableEq, Repr

/-- The `expires_at` property of `OAuthToken`:
`if self.expires_in is None: return None` then
`return datetime.now(timezone.utc) + timedelta(seconds=self.expires_in)`.
`now` is the clock value at the moment the property is read — the source
calls `datetime.now` inside the property body, so every read re-samples the
clock. -/
def OAuthToken.expires_at (tok : OAuthToken) (now : Int) : Option Int :=
  match tok.expires_in with
  | none => none
  | some e => some (now + e)

/-- `OAuthState` from `types.py`.  `created_at` defaults to the construction
clock in the source (`default_factory=lambda: datetime.now(timezone.utc)`);
here it is an explicit field. -/
structure OAuthState where
  state : String
  provider : String
  redirect_uri : String
  created_at : Int
  next_url : Option String := none
  extra_data : List (String × String) := []
  deriving DecidableEq, Repr

/-- All three data types are declared frozen in the source: the msgspec branch
passes `frozen=True` to each `Struct`, and the dataclass branch passes
`_dataclass_kwargs = {"frozen": True, "slots": True, "kw_only": True}`. -/
def dataclassFrozen : Bool := true

/-- Attempted attribute assignment on `OAuthUserInfo`, following Python frozen
semantics: when the class is frozen, `__setattr__` raises
`FrozenInstanceError` before any field is written, so no updated instance is
ever produced; otherwise the update would be applied.  `upd` stands for an
arbitrary single-field assignment. -/
def OAuthUserInfo.setattr (u : OAuthUserInfo) (upd : OAuthUserInfo → OAuthUserInfo) :
    Except String OAuthUserInfo :=
  if dataclassFrozen then .error "FrozenInstanceError" else .ok (upd u)

/-- Attempted attribute assignment on `OAuthToken` (see `OAuthUserInfo.setattr`). -/
def OAuthToken.setattr (t : OAuthToken) (upd : OAuthToken → OAuthToken) :
    Except String OAuthToken :=
  if dataclassFrozen then .error "FrozenInstanceError" else .ok (upd t)

/-- Attempted attribute assignment on `OAuthState` (see `OAuthUserInfo.setattr`). -/
def OAuthState.setattr (s : OAuthState) (upd : OAuthState → OAuthState) :
    Except String OAuthState :=
  if dataclassFrozen then .error "FrozenInstanceError" else .ok (upd s)

/-- Per-provider credential block produced by
`OAuthConfig.get_configured_providers` in
`contrib/litestar/config.py`: `{"client_id": ..., "client_secret": ..., "scope": ...}`. -/
structure ProviderCreds where
  client_id : String
  client_secret : String
  scope : String
  deriving DecidableEq, Repr

/-- `OAuthConfig` from `contrib/litestar/config.py`, with the source's field
defaults. -/
structure OAuthConfig where
  redirect_base_url : String
  route_prefix : String := "/auth"
  success_redirect : String := "/dashboard"
  failure_redirect : String := "/login?error=oauth"
  state_ttl : Int := 600
  enabled_providers : Option (List String) := none
  github_client_id : Option String := none
  github_client_secret : Option String := none
  github_scope : String := "read:user user:email"
  google_client_id : Option String := none
  google_client_secret : Option String := none
  google_scope : String := "openid email profile"
  discord_client_id : Option String := none
  discord_client_secret : Option String := none
  discord_scope : String := "identify email"
  deriving DecidableEq, Repr

/-- `OAuthConfig.get_configured_providers`: for each of github, google and
discord, adds an entry when `client_id and client_secret` are truthy (Python
truthiness: non-`None` and non-empty), in that insertion order, then — when
`enabled_providers is not None` — keeps only the entries whose name occurs in
`enabled_providers`.  The Python `dict` preserves insertion order, so it is
embedded as an ordered association list. -/
def OAuthConfig.get_configured_providers (c : OAuthConfig) : List (String × ProviderCreds) :=
  let ps : List (String × ProviderCreds) :=
    (if pyTruthy c.github_client_id && pyTruthy c.github_client_secret then
      [("github", { client_id := c.github_client_id.getD "",
                    client_secret := c.github_client_secret.getD "",
                    scope := c.github_scope })]
     else [])
    ++
    (if pyTruthy c.google_client_id && pyTruthy c.google_client_secret then
      [("google", { client_id := c.google_client_id.getD "",
                    client_secret := c.google_client_secret.getD "",
                    scope := c.google_scope })]
     else [])
    ++
    (if pyTruthy c.discord_client_id && pyTruthy c.discord_client_secret then
      [("discord", { client_id := c.discord_client_id.getD "",
                     client_secret := c.discord_client_secret.getD "",
                     scope := c.discord_scope })]
     else [])
  match c.enabled_providers with
  | none => ps
  | some enabled => ps.filter fun p => enabled.contains p.1

/-- Whether provider `name` passes the `enabled_providers` restriction of the
claim: every provider is allowed when the field is `None`, otherwise only the
names the sequence contains. -/
def providerEnabled (c : OAuthConfig) (name : String) : Bool :=
  match c.enabled_providers with
  | none => true
  | some enabled => enabled.contains name

/-- One provider's contribution under the claim's description: included
exactly when its `client_id` and `client_secret` are both present and
non-empty and the provider passes the `enabled_providers` restriction, mapped
to its `client_id`, `client_secret` and `scope`. -/
def specProviderEntry (c : OAuthConfig) (name : String) (cid csec : Option String)
    (scope : String) : List (String × ProviderCreds) :=
  match cid, csec with
  | some i, some s =>
    if i ≠ "" && s ≠ "" && providerEnabled c name then
      [(name, { client_id := i, client_secret := s, scope })]
    else []
  | _, _ => []

/-- The configured-provider mapping as the claim describes it: exactly the
providers among github, google, discord whose credentials are both non-empty,
restricted by `enabled_providers` when that is a sequence. -/
def configuredProvidersSpec (c : OAuthConfig) : List (String × ProviderCreds) :=
  specProviderEntry c "github" c.github_client_id c.github_client_secret c.github_scope
  ++ specProviderEntry c "google" c.google_client_id c.google_client_secret c.google_scope
  ++ specProviderEntry c "discord" c.discord_client_id c.discord_client_secret c.discord_scope

/-- The `fullName` behavior as the claim states it, reading "present" as
"not `None`": the space-joined concatenation when both names are present,
the present one when exactly one is, absent when neither is. -/
def fullNameSpecClaim (u : OAuthUserInfo) : Prop :=
  (u.first_name.isSome ∧ u.last_name.isSome →
    u.full_name = some (u.first_name.getD "" ++ " " ++ u.last_name.getD "")) ∧
  (u.first_name.isSome ∧ u.last_name = none → u.full_name = u.first_name) ∧
  (u.first_name = none ∧ u.last_name.isSome → u.full_name = u.last_name) ∧
  (u.first_name = none ∧ u.last_name = none → u.full_name = none)

/-- The amended `fullName` description: the space-joined concatenation when
both names are non-empty strings, the non-empty one when exactly one of them
is non-empty, and otherwise `last_name`'s own value (`None` when `last_name`
is `None`, the empty string when it is the empty string) — empty strings
count as absent for the combination logic. -/
def fullNameAmendedSpec (f l : Option String) : Option String :=
  match f, l with
  | some a, some b =>
    if a ≠ "" ∧ b ≠ "" then some (a ++ " " ++ b)
    else if a ≠ "" then some a
    else some b
  | some a, none => if a ≠ "" then some a else none
  | none, some b => some b
  | none, none => none

/-- Modelled from the spec: the `StateRecord` of §3 — the OAuth service layer
(`StateStore`/`OAuthService`) is not among the repository sources, only its
tests are.  Fields as §3 lists them: token (the storage key), provider,
redirectURI, createdAt, expiresAt = createdAt + TTL, optional nextURL, and an
opaque extra map. -/
structure StateRecord where
  token : String
  provider : String
  redirect_uri : String
  created_at : Int
  expires_at : Int
  next_url : Option String := none
  extra : List (String × String) := []
  deriving DecidableEq, Repr

/-- Modelled from the spec: the StateStore's backing map, keyed by the opaque
state token (§4.1: "stores it keyed by the token"). -/
def StateStore : Type := String → Option StateRecord

/-- Modelled from the spec: `StateStore.Create` (§4.1) — builds a
`StateRecord` with `createdAt = now`, `expiresAt = now + ttlSeconds` and
stores it keyed by the token; no side effect beyond the store write.  The
cryptographically random token generation is outside the model: the token is
a parameter, and the claims quantify over tokens Create returned. -/
def StateStore.create (s : StateStore) (token provider redirect_uri : String)
    (ttlSeconds now : Int) (next_url : Option String) (extra : List (String × String)) :
    StateStore :=
  fun k =>
    if k = token then
      some { token, provider, redirect_uri, created_at := now,
             expires_at := now + ttlSeconds, next_url, extra }
    else s k

/-- Modelled from the spec: `StateStore.Validate` (§4.1) — looks up the record
by token; absent gives not-found; present with `now > expiresAt` deletes it
and gives not-found (lazy expiry, `now == expiresAt` still valid); otherwise
atomically deletes the record and returns it (validate-and-consume).  Returns
the outcome together with the store after the call. -/
def StateStore.validate (s : StateStore) (token : String) (now : Int) :
    Option StateRecord × StateStore :=
  match s token with
  | none => (none, s)
  | some r =>
    if now > r.expires_at then
      (none, fun k => if k = token then none else s k)
    else
      (some r, fun k => if k = token then none else s k)

/-- The OAuth error taxonomy of spec §7 (the kinds the orchestrator claims
mention). -/
inductive OAuthErr
  | stateValidationError
  | tokenExchangeError
  | userInfoError
  | invalidProviderError
  deriving DecidableEq, Repr

/-- Result of a `CompleteLogin` call: the outcome, the number of token
exchange requests performed during the call, and the state store after the
call. -/
structure CompleteLoginResult where
  outcome : Except OAuthErr (OAuthUserInfo × OAuthToken)
  exchange_calls : Nat
  store : StateStore

/-- Modelled from the spec: `OAuthOrchestrator.CompleteLogin` (§4.4) — the
orchestrator is not among the repository sources.  Validates `state` via the
StateStore (consuming it); fails with `StateValidationError` when the token is
unknown/expired/consumed or when the record's stored provider does not match
`providerName` (the cross-provider CSRF check the spec mandates), performing
no token exchange in either case; on success calls `exchangeCode` then
`fetchUserInfo`, propagating their errors unchanged.  The provider layer is
abstracted by the two function parameters. -/
def completeLogin (store : StateStore) (providerName code state : String) (now : Int)
    (exchangeCode : String → String → Except OAuthErr OAuthToken)
    (fetchUserInfo : String → Except OAuthErr OAuthUserInfo) : CompleteLoginResult :=
  match StateStore.validate store state now with
  | (none, s2) => { outcome := .error .stateValidationError, exchange_calls := 0, store := s2 }
  | (some r, s2) =>
    if r.provider ≠ providerName then
      { outcome := .error .stateValidationError, exchange_calls := 0, store := s2 }
    else
      match exchangeCode code r.redirect_uri with
      | .error e => { outcome := .error e, exchange_calls := 1, store := s2 }
      | .ok tok =>
        match fetchUserInfo tok.access_token with
        | .error e => { outcome := .error e, exchange_calls := 1, store := s2 }
        | .ok ui => { outcome := .ok (ui, tok), exchange_calls := 1, store := s2 }

/-- C3: the source computes `expires_at` inside a property body that calls
`datetime.now` on every read, so two reads of the same token at different
clock times return different values — the expiration is recomputed from the
read-time clock, not fixed at construction.  Evaluated at the failing input:
a token with `expires_in = 3600` read at clock 0 and at clock 100. -/
theorem expires_at_recomputed_each_read :
    OAuthToken.expires_at { access_token := "tok", expires_in := some 3600 } 0 = some 3600 ∧
    OAuthToken.expires_at { access_token := "tok", expires_in := some 3600 } 100 = some 3700 ∧
    some (3600 : Int) ≠ some (3700 : Int) :=
  ⟨rfl, rfl, by decide⟩

/-- C4: `expires_at` is `None` exactly when `expires_in` is `None`, and when
`expires_in` is a positive integer the property read at the construction-time
clock is present and strictly greater than that clock value. -/
theorem expires_at_absent_iff_and_future (tok : OAuthToken) (now : Int) :
    (OAuthToken.expires_at tok now = none ↔ tok.expires_in = none) ∧
    (∀ e : Int, tok.expires_in = some e → 0 < e →
      OAuthToken.expires_at tok now = some (now + e) ∧ now < now + e) := by
  constructor
  · cases h : tok.expires_in <;> simp [OAuthToken.expires_at, h]
  · intro e he hpos
    exact ⟨by simp [OAuthToken.expires_at, he], by omega⟩

/-- Witness for C4 at `expires_in = 3600`, construction clock 0. -/
theorem expires_at_absent_iff_and_future_witness :
    OAuthToken.expires_at { access_token := "t", expires_in := some 3600 } 0 = some (0 + 3600) ∧
    (0 : Int) < 0 + 3600 :=
  (expires_at_absent_iff_and_future { access_token := "t", expires_in := some 3600 } 0).2
    3600 rfl (by decide)

/-- C9: whenever `expires_in` is present, `expires_at` is present and equals
the read-time clock plus `expires_in`; for a non-positive `expires_in` the
resulting timestamp is never in the future of that clock. -/
theorem expires_at_nonpositive_never_future (tok : OAuthToken) (now e : Int)
    (h : tok.expires_in = some e) :
    OAuthToken.expires_at tok now = some (now + e) ∧ (e ≤ 0 → now + e ≤ now) :=
  ⟨by simp [OAuthToken.expires_at, h], fun _ => by omega⟩

/-- Witness for C9 at `expires_in = 0`, read-time clock 5. -/
theorem expires_at_nonpositive_never_future_witness :
    OAuthToken.expires_at { access_token := "t", expires_in := some 0 } 5 = some (5 + 0) ∧
    ((0 : Int) ≤ 0 → (5 : Int) + 0 ≤ 5) :=
  expires_at_nonpositive_never_future { access_token := "t", expires_in := some 0 } 5 0 rfl

/-- C5 counterexample: with `first_name = Some ""` (present, not `None`) and
`last_name = None`, exactly one of the two components is present, yet
`full_name` is `None` rather than the present component — Python truthiness
makes the empty string behave as absent, falsifying the claim read with
"present" as "not None". -/
theorem full_name_claim_counterexample :
    ¬ fullNameSpecClaim { provider := "github", oauth_id := "1", first_name := some "" } := by
  intro h
  have h2 := h.2.1 ⟨rfl, rfl⟩
  simp [OAuthUserInfo.full_name, pyTruthy, pyOr] at h2

/-- C5 amended: `full_name` is the space-joined concatenation when both name
components are non-empty strings, the non-empty one when exactly one is
non-empty, and otherwise `last_name`'s own value (`None` when `last_name` is
`None`, `""` when it is `""`) — empty strings count as absent. -/
theorem full_name_amended_spec (u : OAuthUserInfo) :
    u.full_name = fullNameAmendedSpec u.first_name u.last_name := by
  rcases hf : u.first_name with _ | a <;> rcases hl : u.last_name with _ | b <;>
    simp only [OAuthUserInfo.full_name, fullNameAmendedSpec, pyOr, pyTruthy, hf, hl]
  · simp
  · simp
  · by_cases ha : a = "" <;> simp [ha]
  · by_cases ha : a = "" <;> by_cases hb : b = "" <;> simp [ha, hb]

/-- C6 counterexample: constructing an `OAuthUserInfo` with an empty
`provider` and an empty `oauth_id` succeeds and stores the empty strings —
construction performs no non-emptiness check, so the claimed invariant is not
enforced. -/
theorem construct_empty_provider_accepted :
    OAuthUserInfo.construct "" "" none false none none none none none [] =
      .ok { provider := "", oauth_id := "" } :=
  rfl

/-- C6 amended: construction always succeeds and stores exactly the strings
passed for `provider` and `oauth_id`, with no emptiness validation. -/
theorem construct_preserves_identity_fields (p i : String) (email : Option String)
    (ev : Bool) (un fn ln av pu : Option String) (rd : List (String × String)) :
    ∃ u : OAuthUserInfo,
      OAuthUserInfo.construct p i email ev un fn ln av pu rd = .ok u ∧
      u.provider = p ∧ u.oauth_id = i :=
  ⟨_, rfl, rfl, rfl⟩

/-- C7: all three data types are frozen, so every attempted field assignment
on any instance raises `FrozenInstanceError` and produces no updated
instance — the original value is left unchanged. -/
theorem frozen_types_reject_assignment (u : OAuthUserInfo) (t : OAuthToken) (s : OAuthState)
    (f : OAuthUserInfo → OAuthUserInfo) (g : OAuthToken → OAuthToken)
    (k : OAuthState → OAuthState) :
    OAuthUserInfo.setattr u f = .error "FrozenInstanceError" ∧
    OAuthToken.setattr t g = .error "FrozenInstanceError" ∧
    OAuthState.setattr s k = .error "FrozenInstanceError" :=
  ⟨rfl, rfl, rfl⟩

/-- One provider's block of `get_configured_providers` agrees with the
claim's per-provider description when `enabled_providers` is `None`. -/
lemma entry_eq_spec_of_enabled_none (c : OAuthConfig) (hc : c.enabled_providers = none)
    (name : String) (cid csec : Option String) (scope : String) :
    (if pyTruthy cid && pyTruthy csec then
      [(name, { client_id := cid.getD "", client_secret := csec.getD "", scope : ProviderCreds })]
     else [])
    = specProviderEntry c name cid csec scope := by
  rcases cid with _ | i <;> rcases csec with _ | s <;>
    simp [pyTruthy, specProviderEntry, providerEnabled, hc]

/-- One provider's block of `get_configured_providers`, after the
`enabled_providers` filter, agrees with the claim's per-provider
description. -/
lemma entry_filter_eq_spec (c : OAuthConfig) (l : List String)
    (hc : c.enabled_providers = some l) (name : String) (cid csec : Option String)
    (scope : String) :
    ((if pyTruthy cid && pyTruthy csec then
      [(name, { client_id := cid.getD "", client_secret := csec.getD "", scope : ProviderCreds })]
     else []).filter fun p => l.contains p.1)
    = specProviderEntry c name cid csec scope := by
  rcases cid with _ | i <;> rcases csec with _ | s <;>
    simp [pyTruthy, specProviderEntry, providerEnabled, hc, List.filter]
  by_cases hi : i = "" <;> by_cases hs : s = "" <;> by_cases hm : name ∈ l <;>
    simp [hi, hs, hm, List.filter]

/-- C8: `get_configured_providers` returns exactly the providers among
github, google and discord whose `client_id` and `client_secret` are both
present and non-empty, each mapped to its `client_id`, `client_secret` and
`scope`; with `enabled_providers = None` all such providers are included, and
with a sequence the result is further restricted to the names it contains. -/
theorem get_configured_providers_spec (c : OAuthConfig) :
    OAuthConfig.get_configured_providers c = configuredProvidersSpec c := by
  unfold OAuthConfig.get_configured_providers configuredProvidersSpec
  cases hc : c.enabled_providers with
  | none =>
    rw [← entry_eq_spec_of_enabled_none c hc "github", ← entry_eq_spec_of_enabled_none c hc "google",
        ← entry_eq_spec_of_enabled_none c hc "discord"]
  | some l =>
    rw [← entry_filter_eq_spec c l hc "github", ← entry_filter_eq_spec c l hc "google",
        ← entry_filter_eq_spec c l hc "discord", ← List.filter_append, ← List.filter_append]

/-- C10: an explicitly empty `enabled_providers` sequence disables every
provider — `get_configured_providers` returns the empty mapping even when all
credentials are set, rather than falling back to the all-configured
default. -/
theorem empty_enabled_providers_disables_all (c : OAuthConfig)
    (h : c.enabled_providers = some []) :
    OAuthConfig.get_configured_providers c = [] := by
  unfold OAuthConfig.get_configured_providers
  rw [h]
  simp [List.filter]

/-- Witness for C10: all three providers fully configured, but
`enabled_providers = []`. -/
theorem empty_enabled_providers_disables_all_witness :
    OAuthConfig.get_configured_providers
      { redirect_base_url := "https://example.com", enabled_providers := some [],
        github_client_id := some "gid", github_client_secret := some "gsec",
        google_client_id := some "goid", google_client_secret := some "gosec",
        discord_client_id := some "did", discord_client_secret := some "dsec" } = [] :=
  empty_enabled_providers_disables_all _ rfl

/-- C1: for a token issued by `StateStore.create`, the first `validate` call
within the TTL window (`now1 ≤ createdAt + ttl`, expiry inclusive at
`expiresAt`) returns the original record, and any subsequent `validate` of
the same token, at any later clock value, returns not-found: validation
consumes the token exactly once (sequential statement). -/
theorem state_token_single_use (s : StateStore) (t p uri : String)
    (ttl n0 now1 now2 : Int) (hwin : now1 ≤ n0 + ttl) :
    (StateStore.validate (StateStore.create s t p uri ttl n0 none []) t now1).1
      = some { token := t, provider := p, redirect_uri := uri, created_at := n0,
               expires_at := n0 + ttl, next_url := none, extra := [] } ∧
    (StateStore.validate
      (StateStore.validate (StateStore.create s t p uri ttl n0 none []) t now1).2 t now2).1
      = none := by
  have hnot : ¬ now1 > n0 + ttl := by omega
  constructor
  · simp [StateStore.validate, StateStore.create, hnot]
  · simp [StateStore.validate, StateStore.create, hnot]

/-- Witness for C1: empty store, token "tok" created at clock 0 with TTL 600,
first validation at clock 10, second at clock 20. -/
theorem state_token_single_use_witness :
    (StateStore.validate (StateStore.create (fun _ => none) "tok" "github" "u" 600 0 none [])
        "tok" 10).1
      = some { token := "tok", provider := "github", redirect_uri := "u", created_at := 0,
               expires_at := 0 + 600, next_url := none, extra := [] } ∧
    (StateStore.validate
      (StateStore.validate (StateStore.create (fun _ => none) "tok" "github" "u" 600 0 none [])
          "tok" 10).2 "tok" 20).1
      = none :=
  state_token_single_use (fun _ => none) "tok" "github" "u" 600 0 10 20 (by decide)

/-- C2: when the state token resolves to a live record whose stored provider
differs from the `providerName` argument, `completeLogin` fails with
`StateValidationError` and performs no token exchange, even though the token
was otherwise valid and unconsumed. -/
theorem complete_login_provider_mismatch (store : StateStore)
    (providerName code state : String) (now : Int)
    (exchangeCode : String → String → Except OAuthErr OAuthToken)
    (fetchUserInfo : String → Except OAuthErr OAuthUserInfo) (r : StateRecord)
    (hres : store state = some r) (hvalid : ¬ now > r.expires_at)
    (hmismatch : r.provider ≠ providerName) :
    (completeLogin store providerName code state now exchangeCode fetchUserInfo).outcome
      = .error .stateValidationError ∧
    (completeLogin store providerName code state now exchangeCode fetchUserInfo).exchange_calls
      = 0 := by
  constructor <;> simp [completeLogin, StateStore.validate, hres, hvalid, hmismatch]

/-- Witness for C2: a store holding an unconsumed, unexpired record for
provider "github", completed with provider argument "google". -/
theorem complete_login_provider_mismatch_witness :
    (completeLogin
      (fun k => if k = "st" then
        some { token := "st", provider := "github", redirect_uri := "u",
               created_at := 0, expires_at := 600 }
       else none)
      "google" "code123" "st" 10
      (fun _ _ => .ok { access_token := "atk" })
      (fun _ => .ok { provider := "github", oauth_id := "1" })).outcome
      = .error .stateValidationError ∧
    (completeLogin
      (fun k => if k = "st" then
        some { token := "st", provider := "github", redirect_uri := "u",
               created_at := 0, expires_at := 600 }
       else none)
      "google" "code123" "st" 10
      (fun _ _ => .ok { access_token := "atk" })
      (fun _ => .ok { provider := "github", oauth_id := "1" })).exchange_calls
      = 0 :=
  complete_login_provider_mismatch _ "google" "code123" "st" 10 _ _
    { token := "st", provider := "github", redirect_uri := "u",
      created_at := 0, expires_at := 600 }
    (by simp) (by decide) (by decide)

end LitestarOAuth
